import Mathlib

/-!
Shallow embedding of the VitoConnect smart-queue scheduler
(src/components/vitoconnect/vitoconnect_smart_queue.h), the dispatcher step
(VitoConnect::loop) and the batched producer pass
(VitoConnect::update, pass 2) from src/components/vitoconnect/vitoconnect.cpp.

Machine `uint32_t` values are modelled as `Nat`; the wrapping subtraction
`now - t` that the C code performs on `uint32_t` is modelled by `sub32`.
`millis()` is passed in explicitly as the `now` argument of each operation.
-/

/-- Wrapping 32-bit unsigned subtraction, as computed by C `uint32_t` arithmetic. -/
def sub32 (a b : Nat) : Nat := (a % 2 ^ 32 + 2 ^ 32 - b % 2 ^ 32) % 2 ^ 32

/-- SmartQueue::MAX_QUEUE_SIZE. -/
def MAX_QUEUE_SIZE : Nat := 64

/-- SmartQueue::INTER_COMM_DELAY_MS. -/
def INTER_COMM_DELAY_MS : Nat := 50

/-- SmartQueue::REQUEST_TIMEOUT_MS. -/
def REQUEST_TIMEOUT_MS : Nat := 30000

/-- SmartQueue::RETRY_DELAY_MS. -/
def RETRY_DELAY_MS : Nat := 50

/-- struct QueuedRequest.  The C `void* callback_arg` is modelled as an
`Option Nat` token: `none` stands for `nullptr`. -/
structure QueuedRequest where
  address : Nat
  length : Nat
  is_write : Bool
  callback_arg : Option Nat
  component_type : Nat
  enqueue_time : Nat
deriving DecidableEq, Repr

/-- QueuedRequest::matches: component-aware equality on
(address, operation-kind, component type). -/
def QueuedRequest.matches (r : QueuedRequest) (addr : Nat) (w : Bool) (ct : Nat) : Bool :=
  r.address == addr && r.is_write == w && r.component_type == ct

/-- State of class SmartQueue: the two class queues and the four scalar fields. -/
structure SmartQueue where
  write_queue : List QueuedRequest
  read_queue : List QueuedRequest
  has_current : Bool
  current_is_write : Bool
  last_comm_time : Nat
  last_retry_time : Nat
deriving DecidableEq, Repr

/-- SmartQueue constructor state. -/
def SmartQueue.init : SmartQueue :=
  { write_queue := [], read_queue := [], has_current := false,
    current_is_write := false, last_comm_time := 0, last_retry_time := 0 }

/-- SmartQueue::size: total number of stored operations (the in-flight
element, when present, sits at the front of its class queue and is counted). -/
def SmartQueue.size (s : SmartQueue) : Nat :=
  s.write_queue.length + s.read_queue.length

/-- SmartQueue::get_current_ptr: re-resolve the in-flight element as the front
of its class queue; `none` when idle or when that class queue is empty. -/
def SmartQueue.get_current_ptr (s : SmartQueue) : Option QueuedRequest :=
  if s.has_current = true then
    (if s.current_is_write = true then s.write_queue.head? else s.read_queue.head?)
  else none

/-- SmartQueue::has_pending: scan the class queue of the given kind, then the
in-flight element of the same kind. -/
def SmartQueue.has_pending (s : SmartQueue) (addr : Nat) (w : Bool) (ct : Nat) : Bool :=
  let q := if w = true then s.write_queue else s.read_queue
  q.any (fun r => r.matches addr w ct) ||
    (s.has_current && s.current_is_write == w &&
      (match s.get_current_ptr with
       | some c => c.matches addr w ct
       | none => false))

/-- Outcome of SmartQueue::enqueue.  The C function returns `true` on both the
accepted and the duplicate path and `false` when the store is full; the three
paths are distinguishable in the source, so the embedding keeps them apart. -/
inductive EnqueueResult
  | accepted
  | duplicate
  | full
deriving DecidableEq, Repr

/-- SmartQueue::enqueue: capacity check, then the deduplication scan (always
for writes, for reads only when the read queue holds more than 10 elements),
then append to the tail of the class queue with enqueue_time = now. -/
def SmartQueue.enqueue (s : SmartQueue) (now addr len : Nat) (w : Bool)
    (arg : Option Nat) (ct : Nat) : EnqueueResult × SmartQueue :=
  if MAX_QUEUE_SIZE ≤ s.write_queue.length + s.read_queue.length then
    (.full, s)
  else if (w = true ∨ 10 < s.read_queue.length) ∧ s.has_pending addr w ct = true then
    (.duplicate, s)
  else
    let req : QueuedRequest :=
      { address := addr, length := len, is_write := w, callback_arg := arg,
        component_type := ct, enqueue_time := now % 2 ^ 32 }
    if w = true then
      (.accepted, { s with write_queue := s.write_queue ++ [req] })
    else
      (.accepted, { s with read_queue := s.read_queue ++ [req] })

/-- SmartQueue::retry_current: when in flight, record the retry timestamp and
clear the in-flight flag; the element stays at the front of its class queue. -/
def SmartQueue.retry_current (s : SmartQueue) (now : Nat) : SmartQueue :=
  if s.has_current = false then s
  else { s with last_retry_time := now % 2 ^ 32, has_current := false }

/-- SmartQueue::release_current: when in flight, record the pacing timestamp,
reset the retry throttle, pop the front of the in-flight class and go idle. -/
def SmartQueue.release_current (s : SmartQueue) (now : Nat) : SmartQueue :=
  if s.has_current = false then s
  else
    let s1 := { s with last_comm_time := now % 2 ^ 32, last_retry_time := 0 }
    let s2 :=
      if s.current_is_write = true then { s1 with write_queue := s1.write_queue.tail }
      else { s1 with read_queue := s1.read_queue.tail }
    { s2 with has_current := false }

/-- SmartQueue::get_next: retry throttle, inter-communication pacing, in-flight
re-resolution with timeout force-release, then write-before-read selection. -/
def SmartQueue.get_next (s : SmartQueue) (now : Nat) : Option QueuedRequest × SmartQueue :=
  if 0 < s.last_retry_time ∧ sub32 now s.last_retry_time < RETRY_DELAY_MS then
    (none, s)
  else if s.has_current = false ∧ sub32 now s.last_comm_time < INTER_COMM_DELAY_MS then
    (none, s)
  else if s.has_current = true then
    match s.get_current_ptr with
    | none => (none, { s with has_current := false, last_retry_time := 0 })
    | some current =>
      if REQUEST_TIMEOUT_MS < sub32 now current.enqueue_time then
        let s1 := s.release_current now
        (none, { s1 with last_retry_time := 0 })
      else
        (some current, s)
  else
    match s.write_queue with
    | w :: _ =>
      (some w, { s with has_current := true, current_is_write := true, last_retry_time := 0 })
    | [] =>
      match s.read_queue with
      | r :: _ =>
        (some r, { s with has_current := true, current_is_write := false, last_retry_time := 0 })
      | [] => (none, s)

/-- Erase-while-iterating loop of SmartQueue::cleanup_stale over one class
queue: drop every element whose age strictly exceeds the timeout. -/
def cleanupList (now : Nat) : List QueuedRequest → List QueuedRequest
  | [] => []
  | r :: rest =>
    if REQUEST_TIMEOUT_MS < sub32 now r.enqueue_time then cleanupList now rest
    else r :: cleanupList now rest

/-- SmartQueue::cleanup_stale: run the eviction loop on both class queues;
no other field is touched. -/
def SmartQueue.cleanup_stale (s : SmartQueue) (now : Nat) : SmartQueue :=
  { s with write_queue := cleanupList now s.write_queue,
           read_queue := cleanupList now s.read_queue }

/-- Class well-formedness: elements of the write queue carry the write kind,
elements of the read queue the read kind.  Every element is inserted by
enqueue into the queue matching its kind, so every reachable state satisfies
this. -/
def SmartQueue.wf (s : SmartQueue) : Prop :=
  (∀ r ∈ s.write_queue, r.is_write = true) ∧ (∀ r ∈ s.read_queue, r.is_write = false)

/-- Outcome of one VitoConnect::loop step, as observed at the transport
boundary: what was pushed, or why nothing was. -/
inductive LoopResult
  | skippedNotReady
  | idle
  | droppedMalformed
  | throttledBusy
  | pushed (r : QueuedRequest)
  | pushRejected
deriving DecidableEq, Repr

/-- VitoConnect::loop, one dispatcher step.  The transport collaborator is
abstracted by three inputs: `ready` (is_ready), `optoQueueSize` (queue_size)
and `pushOk` (result of the read/write push).  The C watermark test
`queue_size() > 64 * 0.8` compares against 51.2 in double precision, which
holds for an integer size exactly when `51 < optoQueueSize`. -/
def vitoLoop (ready : Bool) (optoQueueSize : Nat) (pushOk : Bool)
    (s : SmartQueue) (now : Nat) : LoopResult × SmartQueue :=
  if ready = false then
    (.skippedNotReady, s.retry_current now)
  else
    match s.get_next now with
    | (none, s1) => (.idle, s1)
    | (some req, s1) =>
      if req.callback_arg = none then
        (.droppedMalformed, s1.release_current now)
      else if 51 < optoQueueSize then
        (.throttledBusy, s1.retry_current now)
      else if pushOk = true then
        (.pushed req, s1)
      else
        (.pushRejected, s1.retry_current now)

/-- BATCH_SIZE of VitoConnect::update, pass 2. -/
def BATCH_SIZE : Nat := 20

/-- Registered point, as the producer sees it: address, length and the
component tag used for deduplication. -/
structure Datapoint where
  address : Nat
  length : Nat
  comp_type : Nat
deriving DecidableEq, Repr

/-- Loop body of VitoConnect::update pass 2 over the remaining points:
a failed enqueue (store full) is skipped without counting; a successful or
duplicate enqueue counts toward the batch, and reaching BATCH_SIZE saves the
next index as the cursor and stops; exhausting the list resets the cursor. -/
def pass2Go (now : Nat) : List Datapoint → Nat → Nat → SmartQueue → SmartQueue × Nat
  | [], _, _, q => (q, 0)
  | dp :: rest, idx, processed, q =>
    let step := q.enqueue now dp.address dp.length false (some idx) dp.comp_type
    if step.1 = .full then
      pass2Go now rest (idx + 1) processed step.2
    else if BATCH_SIZE ≤ processed + 1 then
      (step.2, idx + 1)
    else
      pass2Go now rest (idx + 1) (processed + 1) step.2

/-- VitoConnect::update pass 2: batched baseline reads starting at the saved
cursor, returning the new store and the new cursor. -/
def producerPass2 (dps : List Datapoint) (cursor : Nat) (q : SmartQueue)
    (now : Nat) : SmartQueue × Nat :=
  pass2Go now (dps.drop cursor) cursor 0 q

/-- Thirty-five concrete registered points with pairwise distinct addresses
and tags, for the concrete producer-coverage scenario. -/
def dps35 : List Datapoint :=
  (List.range 35).map fun i => { address := 4096 + i, length := 2, comp_type := i }

/-! Concrete requests and scheduler states used by the closed scenario
theorems below. -/

/-- Read request at address 2 with enqueue time 0, carrying a callback token. -/
def c5req : QueuedRequest :=
  { address := 2, length := 1, is_write := false, callback_arg := some 0,
    component_type := 0, enqueue_time := 0 }

/-- State with c5req in flight as the front of the read class. -/
def c5state : SmartQueue :=
  { SmartQueue.init with read_queue := [c5req], has_current := true }

/-- Read request at address 4, enqueued at time 0. -/
def c4req : QueuedRequest :=
  { address := 4, length := 1, is_write := false, callback_arg := some 0,
    component_type := 0, enqueue_time := 0 }

/-- State with c4req in flight as the front of the read class. -/
def c4state : SmartQueue :=
  { SmartQueue.init with read_queue := [c4req], has_current := true }

/-- State after one read was enqueued at time 0 into the fresh scheduler. -/
def c2s1 : SmartQueue :=
  (SmartQueue.init.enqueue 0 5 1 false (some 1) 0).2

/-- State after that read was selected at time 100 and a write was then
enqueued at time 100: a read is in flight while a write is pending. -/
def c2s3 : SmartQueue :=
  ((c2s1.get_next 100).2.enqueue 100 6 1 true (some 2) 0).2

/-- Write request at address 8 with enqueue time 0. -/
def c2wreq : QueuedRequest :=
  { address := 8, length := 1, is_write := true, callback_arg := some 0,
    component_type := 0, enqueue_time := 0 }

/-- Idle state whose write class holds exactly c2wreq. -/
def c2wstate : SmartQueue :=
  { SmartQueue.init with write_queue := [c2wreq] }

/-- Read request enqueued at time 0, older than the timeout at time 40000. -/
def c7op1 : QueuedRequest :=
  { address := 7, length := 1, is_write := false, callback_arg := some 3,
    component_type := 0, enqueue_time := 0 }

/-- Read request enqueued at time 10000: at time 40000 its age is exactly
REQUEST_TIMEOUT_MS. -/
def c7op2 : QueuedRequest :=
  { address := 7, length := 1, is_write := false, callback_arg := some 4,
    component_type := 1, enqueue_time := 10000 }

/-- State with c7op1 in flight at the front of the read class and c7op2
queued behind it. -/
def c7state : SmartQueue :=
  { SmartQueue.init with read_queue := [c7op1, c7op2], has_current := true }

/-- Read request whose callback token is missing (a C null pointer). -/
def c9req : QueuedRequest :=
  { address := 9, length := 1, is_write := false, callback_arg := none,
    component_type := 0, enqueue_time := 0 }

/-- Idle state whose read class holds exactly the malformed request. -/
def c9state : SmartQueue :=
  { SmartQueue.init with read_queue := [c9req] }

/-- State already holding MAX_QUEUE_SIZE read requests. -/
def c3fullState : SmartQueue :=
  { SmartQueue.init with read_queue := List.replicate 64 c5req }

/-! Helper lemmas. -/

/-- When no wraparound is involved, the 32-bit wrapping subtraction agrees
with truncated Nat subtraction. -/
theorem sub32_eq_of_le (a b : Nat) (hba : b ≤ a) (ha : a < 2 ^ 32) :
    sub32 a b = a - b := by
  unfold sub32
  omega

/-- The eviction loop of cleanup_stale keeps, in order, exactly the elements
whose age does not strictly exceed the timeout. -/
theorem cleanupList_eq_filter (now : Nat) (l : List QueuedRequest) :
    cleanupList now l =
      l.filter (fun r => decide (sub32 now r.enqueue_time ≤ REQUEST_TIMEOUT_MS)) := by
  induction l with
  | nil => rfl
  | cons r rest ih =>
    by_cases h : REQUEST_TIMEOUT_MS < sub32 now r.enqueue_time
    · simp [cleanupList, h, List.filter, Nat.not_le.mpr h, ih]
    · simp [cleanupList, h, List.filter, Nat.not_lt.mp h, ih]

/-- C10: calling retry_current or release_current when no operation is in
flight is an exact no-op: the whole scheduler state, every field included, is
unchanged. -/
theorem c10_idle_retry_release_noop (s : SmartQueue) (now now' : Nat)
    (h : s.has_current = false) :
    s.retry_current now = s ∧ s.release_current now' = s := by
  constructor
  · simp [SmartQueue.retry_current, h]
  · simp [SmartQueue.release_current, h]

/-- Witness for C10 at the constructor state. -/
theorem c10_idle_retry_release_noop_witness :
    SmartQueue.init.retry_current 5 = SmartQueue.init ∧
      SmartQueue.init.release_current 7 = SmartQueue.init :=
  c10_idle_retry_release_noop SmartQueue.init 5 7 rfl

/-- C6: with no retry throttle active and nothing selected, a get_next call
within the inter-communication spacing of the last release returns none and
leaves the state unchanged, no matter what is queued. -/
theorem c6_inter_comm_pacing (s : SmartQueue) (now : Nat)
    (hr : s.last_retry_time = 0) (hc : s.has_current = false)
    (hp : sub32 now s.last_comm_time < INTER_COMM_DELAY_MS) :
    s.get_next now = (none, s) := by
  simp [SmartQueue.get_next, hr, hc, hp]

/-- Witness for C6: a release happened at 100, get_next at 120 is paced. -/
theorem c6_inter_comm_pacing_witness :
    ({ SmartQueue.init with
        read_queue := [{ address := 1, length := 1, is_write := false,
                         callback_arg := some 0, component_type := 0, enqueue_time := 100 }],
        last_comm_time := 100 } : SmartQueue).get_next 120 =
      (none, { SmartQueue.init with
        read_queue := [{ address := 1, length := 1, is_write := false,
                         callback_arg := some 0, component_type := 0, enqueue_time := 100 }],
        last_comm_time := 100 }) :=
  c6_inter_comm_pacing _ 120 rfl rfl (by decide)

/-- C5: retry_current on an in-flight state clears the in-flight flag, leaves
both class queues untouched (the retried element stays at the front of its
class), records the retry timestamp, and every get_next call strictly within
RETRY_DELAY_MS of the retry returns none. -/
theorem c5_retry_throttle (s : SmartQueue) (tr now : Nat)
    (hc : s.has_current = true) (h0 : 0 < tr) (hle : tr ≤ now)
    (hlt : now < tr + RETRY_DELAY_MS) (hnow : now < 2 ^ 32) :
    (s.retry_current tr).has_current = false ∧
      (s.retry_current tr).write_queue = s.write_queue ∧
      (s.retry_current tr).read_queue = s.read_queue ∧
      (s.retry_current tr).last_retry_time = tr ∧
      ((s.retry_current tr).get_next now).1 = none := by
  have htr : tr < 2 ^ 32 := lt_of_le_of_lt hle hnow
  have hmod : tr % 4294967296 = tr := by omega
  have hsub : sub32 now tr = now - tr := sub32_eq_of_le now tr hle hnow
  have h50 : now - tr < RETRY_DELAY_MS := by
    have hlt' : now < tr + 50 := hlt
    show now - tr < 50
    omega
  refine ⟨?_, ?_, ?_, ?_, ?_⟩ <;>
    simp [SmartQueue.retry_current, SmartQueue.get_next, hc, hmod, hsub, h0, h50]

/-- Witness for C5: retry at 100 on an in-flight state, get_next at 120 is
throttled. -/
theorem c5_retry_throttle_witness :
    (c5state.retry_current 100).has_current = false ∧
      (c5state.retry_current 100).write_queue = c5state.write_queue ∧
      (c5state.retry_current 100).read_queue = c5state.read_queue ∧
      (c5state.retry_current 100).last_retry_time = 100 ∧
      ((c5state.retry_current 100).get_next 120).1 = none :=
  c5_retry_throttle c5state 100 120 rfl (by decide) (by decide) (by decide) (by decide)

/-- C4: on a get_next call with an operation in flight whose age strictly
exceeds REQUEST_TIMEOUT_MS, the call force-releases it through
release_current (pop the front of the in-flight class, clear the in-flight
flag) and returns none. -/
theorem c4_timeout_release (s : SmartQueue) (now : Nat) (cur : QueuedRequest)
    (hc : s.has_current = true) (hr : s.last_retry_time = 0)
    (hp : s.get_current_ptr = some cur)
    (ht : REQUEST_TIMEOUT_MS < sub32 now cur.enqueue_time) :
    s.get_next now = (none, s.release_current now) ∧
      (s.release_current now).has_current = false ∧
      (s.current_is_write = true →
        (s.release_current now).write_queue = s.write_queue.tail ∧
          (s.release_current now).read_queue = s.read_queue) ∧
      (s.current_is_write = false →
        (s.release_current now).read_queue = s.read_queue.tail ∧
          (s.release_current now).write_queue = s.write_queue) := by
  refine ⟨?_, ?_, ?_, ?_⟩
  · simp [SmartQueue.get_next, hc, hr, hp, ht, SmartQueue.release_current]
    by_cases hw : s.current_is_write = true <;> simp [hw]
  · simp [SmartQueue.release_current, hc]
  · intro hw
    simp [SmartQueue.release_current, hc, hw]
  · intro hw
    simp [SmartQueue.release_current, hc, hw]

/-- Witness for C4: c4req entered at 0 and in flight; get_next at 31000
times it out and returns none. -/
theorem c4_timeout_release_witness :
    c4state.get_next 31000 = (none, c4state.release_current 31000) ∧
      (c4state.release_current 31000).has_current = false :=
  ⟨(c4_timeout_release c4state 31000 c4req rfl rfl (by decide) (by decide)).1,
   (c4_timeout_release c4state 31000 c4req rfl rfl (by decide) (by decide)).2.1⟩

/-- C3: enqueue rejects exactly when the total stored count (both class
queues; the in-flight element sits in its class queue and is counted) has
reached MAX_QUEUE_SIZE, leaving the store untouched; and every accepted
(non-duplicate) enqueue appends the new request, stamped with the current
time, to the tail of its class sequence. -/
theorem c3_capacity_and_append (s : SmartQueue) (now addr len : Nat) (w : Bool)
    (arg : Option Nat) (ct : Nat) :
    ((s.enqueue now addr len w arg ct).1 = .full ↔ MAX_QUEUE_SIZE ≤ s.size) ∧
      (MAX_QUEUE_SIZE ≤ s.size → s.enqueue now addr len w arg ct = (.full, s)) ∧
      ((s.enqueue now addr len w arg ct).1 = .accepted →
        (s.enqueue now addr len w arg ct).2 =
          (if w = true then
            { s with write_queue := s.write_queue ++
                [{ address := addr, length := len, is_write := w, callback_arg := arg,
                   component_type := ct, enqueue_time := now % 2 ^ 32 }] }
           else
            { s with read_queue := s.read_queue ++
                [{ address := addr, length := len, is_write := w, callback_arg := arg,
                   component_type := ct, enqueue_time := now % 2 ^ 32 }] })) := by
  unfold SmartQueue.enqueue SmartQueue.size
  split
  · next hcap => simp [hcap]
  · next hcap =>
    split
    · next hdup => simp [hcap]
    · next hdup =>
      by_cases hw : w = true <;> simp [hcap, hw]

/-- Witness for C3: a store holding 64 requests rejects and is unchanged,
and a write accepted into the fresh store lands at the tail of the write
class with its enqueue time set. -/
theorem c3_capacity_and_append_witness :
    c3fullState.enqueue 0 1 1 false none 0 = (.full, c3fullState) ∧
      (SmartQueue.init.enqueue 7 3 2 true (some 5) 1).2 =
        { SmartQueue.init with
            write_queue := [{ address := 3, length := 2, is_write := true,
                              callback_arg := some 5, component_type := 1,
                              enqueue_time := 7 }] } := by
  constructor
  · exact (c3_capacity_and_append c3fullState 0 1 1 false none 0).2.1 (by decide)
  · have h := (c3_capacity_and_append SmartQueue.init 7 3 2 true (some 5) 1).2.2 (by decide)
    simpa using h

/-- C1 counterexample: with a small read queue the deduplication scan is
skipped, so enqueuing the identical read tuple twice in a row with no
intervening release reports accepted (not Duplicate) the second time and
grows the store to size 2: two operations with the same
(address, operation-kind, owner tag) coexist in the read class. -/
theorem c1_counterexample :
    (SmartQueue.init.enqueue 0 1 1 false (some 0) 0).1 = .accepted ∧
      ((SmartQueue.init.enqueue 0 1 1 false (some 0) 0).2.enqueue 0 1 1 false
        (some 0) 0).1 = .accepted ∧
      ((SmartQueue.init.enqueue 0 1 1 false (some 0) 0).2.enqueue 0 1 1 false
        (some 0) 0).2.size = 2 := by
  decide

/-- C1 amended: for the write class (where the dedup scan always runs), a
state below capacity with the tuple not yet pending accepts the first
enqueue, grows by exactly one, and reports the second identical enqueue as
Duplicate without any change to the store. -/
theorem c1_amended_write_dedup (s : SmartQueue) (now1 now2 addr len1 len2 : Nat)
    (arg1 arg2 : Option Nat) (ct : Nat)
    (hcap : s.size + 1 < MAX_QUEUE_SIZE)
    (hnp : s.has_pending addr true ct = false) :
    (s.enqueue now1 addr len1 true arg1 ct).1 = .accepted ∧
      (s.enqueue now1 addr len1 true arg1 ct).2.size = s.size + 1 ∧
      ((s.enqueue now1 addr len1 true arg1 ct).2.enqueue now2 addr len2 true
        arg2 ct).1 = .duplicate ∧
      ((s.enqueue now1 addr len1 true arg1 ct).2.enqueue now2 addr len2 true
        arg2 ct).2 = (s.enqueue now1 addr len1 true arg1 ct).2 := by
  have hcap1 : ¬ MAX_QUEUE_SIZE ≤ s.write_queue.length + s.read_queue.length := by
    have : s.size = s.write_queue.length + s.read_queue.length := rfl
    omega
  have hstep : s.enqueue now1 addr len1 true arg1 ct =
      (.accepted, { s with write_queue := s.write_queue ++
        [{ address := addr, length := len1, is_write := true, callback_arg := arg1,
           component_type := ct, enqueue_time := now1 % 2 ^ 32 }] }) := by
    unfold SmartQueue.enqueue
    rw [if_neg hcap1, if_neg (by simp [hnp]), if_pos rfl]
  refine ⟨by rw [hstep], ?_, ?_, ?_⟩
  · rw [hstep]
    simp [SmartQueue.size]
    omega
  · rw [hstep]
    unfold SmartQueue.enqueue
    rw [if_neg (by simp [SmartQueue.size] at hcap ⊢; omega)]
    rw [if_pos ⟨Or.inl rfl, by simp [SmartQueue.has_pending, QueuedRequest.matches]⟩]
  · rw [hstep]
    unfold SmartQueue.enqueue
    rw [if_neg (by simp [SmartQueue.size] at hcap ⊢; omega)]
    rw [if_pos ⟨Or.inl rfl, by simp [SmartQueue.has_pending, QueuedRequest.matches]⟩]

/-- Witness for the amended C1 on the fresh store. -/
theorem c1_amended_write_dedup_witness :
    (SmartQueue.init.enqueue 10 3 1 true (some 1) 2).1 = .accepted ∧
      (SmartQueue.init.enqueue 10 3 1 true (some 1) 2).2.size =
        SmartQueue.init.size + 1 ∧
      ((SmartQueue.init.enqueue 10 3 1 true (some 1) 2).2.enqueue 20 3 1 true
        (some 9) 2).1 = .duplicate ∧
      ((SmartQueue.init.enqueue 10 3 1 true (some 1) 2).2.enqueue 20 3 1 true
        (some 9) 2).2 = (SmartQueue.init.enqueue 10 3 1 true (some 1) 2).2 :=
  c1_amended_write_dedup SmartQueue.init 10 20 3 1 1 (some 1) (some 9) 2
    (by decide) (by decide)

/-- C2 counterexample: after a read was selected and a write arrived, both
classes are non-empty, yet get_next keeps returning the in-flight read-class
operation. -/
theorem c2_counterexample :
    c2s3.write_queue ≠ [] ∧ c2s3.read_queue ≠ [] ∧
      (c2s3.get_next 100).1.map QueuedRequest.is_write = some false := by
  decide

/-- C2 amended: get_next never newly selects a read while the write class is
non-empty — whenever nothing is in flight and a write is pending, any
operation it returns is write-class. -/
theorem c2_amended_no_new_read_selection (s : SmartQueue) (now : Nat)
    (hwf : s.wf) (hc : s.has_current = false) (hw : s.write_queue ≠ [])
    (r : QueuedRequest) (hr : (s.get_next now).1 = some r) :
    r.is_write = true := by
  unfold SmartQueue.get_next at hr
  split at hr
  · simp at hr
  · split at hr
    · simp at hr
    · rw [if_neg (by simp [hc])] at hr
      cases hq : s.write_queue with
      | nil => exact absurd hq hw
      | cons w rest =>
        rw [hq] at hr
        simp at hr
        subst hr
        exact hwf.1 w (by rw [hq]; exact List.mem_cons_self w rest)

/-- Witness for the amended C2: with one pending write and nothing in
flight, the selected operation is write-class. -/
theorem c2_amended_no_new_read_selection_witness :
    (c2wstate.get_next 100).1 = some c2wreq ∧ c2wreq.is_write = true :=
  ⟨by decide,
   c2_amended_no_new_read_selection c2wstate 100 ⟨by decide, by decide⟩ rfl
     (by decide) c2wreq (by decide)⟩

/-- C7 counterexample: cleanup_stale at time 40000 evicts the in-flight front
element c7op1 (age 40000), yet keeps c7op2 although its age is exactly
REQUEST_TIMEOUT_MS, i.e. the call happens at time T + timeout. -/
theorem c7_counterexample :
    c7state.has_current = true ∧ c7state.get_current_ptr = some c7op1 ∧
      40000 = c7op2.enqueue_time + REQUEST_TIMEOUT_MS ∧
      (c7state.cleanup_stale 40000).read_queue = [c7op2] := by
  decide

/-- C7 amended: cleanup_stale keeps in each class queue exactly the elements
whose age is at most REQUEST_TIMEOUT_MS — eviction happens at times strictly
greater than T + timeout and never at or before it — regardless of the
in-flight flag, which it leaves untouched along with every other scalar
field. -/
theorem c7_amended_cleanup_exact (s : SmartQueue) (now : Nat) :
    (s.cleanup_stale now).write_queue =
        s.write_queue.filter
          (fun r => decide (sub32 now r.enqueue_time ≤ REQUEST_TIMEOUT_MS)) ∧
      (s.cleanup_stale now).read_queue =
        s.read_queue.filter
          (fun r => decide (sub32 now r.enqueue_time ≤ REQUEST_TIMEOUT_MS)) ∧
      (s.cleanup_stale now).has_current = s.has_current ∧
      (s.cleanup_stale now).current_is_write = s.current_is_write ∧
      (s.cleanup_stale now).last_comm_time = s.last_comm_time ∧
      (s.cleanup_stale now).last_retry_time = s.last_retry_time ∧
      (∀ r, r ∈ (s.cleanup_stale now).write_queue ↔
        r ∈ s.write_queue ∧ sub32 now r.enqueue_time ≤ REQUEST_TIMEOUT_MS) ∧
      (∀ r, r ∈ (s.cleanup_stale now).read_queue ↔
        r ∈ s.read_queue ∧ sub32 now r.enqueue_time ≤ REQUEST_TIMEOUT_MS) := by
  simp [SmartQueue.cleanup_stale, cleanupList_eq_filter, List.mem_filter]

/-- C8: starting from the fresh scheduler and cursor 0 with the 35 registered
points, the period-1 producer pass enqueues baseline reads for points 0-19
and saves cursor 20; the period-2 pass enqueues points 20-34 and resets the
cursor to 0; across the two periods each point is enqueued exactly once, in
order. -/
theorem c8_producer_batches :
    (producerPass2 dps35 0 SmartQueue.init 1000).2 = 20 ∧
      (producerPass2 dps35 0 SmartQueue.init 1000).1.read_queue.map
          QueuedRequest.address = (List.range 20).map (fun i => 4096 + i) ∧
      (producerPass2 dps35 (producerPass2 dps35 0 SmartQueue.init 1000).2
          (producerPass2 dps35 0 SmartQueue.init 1000).1 2000).2 = 0 ∧
      (producerPass2 dps35 (producerPass2 dps35 0 SmartQueue.init 1000).2
          (producerPass2 dps35 0 SmartQueue.init 1000).1 2000).1.read_queue.map
          QueuedRequest.address = (List.range 35).map (fun i => 4096 + i) := by
  decide

/-- Whenever get_next hands out an operation, the resulting state is in
flight and re-resolving the in-flight element yields exactly that
operation. -/
theorem get_next_some_current (s : SmartQueue) (now : Nat) (r : QueuedRequest)
    (s2 : SmartQueue) (h : s.get_next now = (some r, s2)) :
    s2.has_current = true ∧ s2.get_current_ptr = some r := by
  unfold SmartQueue.get_next at h
  split at h
  · simp at h
  · split at h
    · simp at h
    · split at h
      · next hc =>
        cases hp : s.get_current_ptr with
        | none => rw [hp] at h; simp at h
        | some cur =>
          rw [hp] at h
          have h' : (if REQUEST_TIMEOUT_MS < sub32 now cur.enqueue_time then
              ((none : Option QueuedRequest),
                { s.release_current now with last_retry_time := 0 })
            else (some cur, s)) = (some r, s2) := h
          by_cases hto : REQUEST_TIMEOUT_MS < sub32 now cur.enqueue_time
          · rw [if_pos hto] at h'
            simp at h'
          · rw [if_neg hto] at h'
            rw [Prod.mk.injEq, Option.some.injEq] at h'
            obtain ⟨h1, h2⟩ := h'
            subst h1
            subst h2
            exact ⟨hc, hp⟩
      · next hc =>
        cases hqw : s.write_queue with
        | cons w rest =>
          rw [hqw] at h
          have h' : ((some w : Option QueuedRequest),
              { s with write_queue := w :: rest, has_current := true,
                       current_is_write := true, last_retry_time := 0 }) =
              (some r, s2) := h
          rw [Prod.mk.injEq, Option.some.injEq] at h'
          obtain ⟨h1, h2⟩ := h'
          subst h1
          subst h2
          simp [SmartQueue.get_current_ptr, hqw]
        | nil =>
          rw [hqw] at h
          cases hqr : s.read_queue with
          | cons rr rest =>
            rw [hqr] at h
            have h' : ((some rr : Option QueuedRequest),
                { s with write_queue := [], read_queue := rr :: rest,
                         has_current := true, current_is_write := false,
                         last_retry_time := 0 }) = (some r, s2) := h
            rw [Prod.mk.injEq, Option.some.injEq] at h'
            obtain ⟨h1, h2⟩ := h'
            subst h1
            subst h2
            simp [SmartQueue.get_current_ptr, hqr]
          | nil =>
            rw [hqr] at h
            simp at h

/-- C9: when the transport is ready and get_next returns an operation whose
callback context is missing, the dispatcher step releases the slot and pushes
nothing, whatever the transport capacity or push outcome would have been; the
malformed operation is removed from its class (the store shrinks by one) and
the scheduler is idle again, so the operation is not retried. -/
theorem c9_malformed_dropped (s : SmartQueue) (now optoQueueSize : Nat)
    (pushOk : Bool) (req : QueuedRequest) (s1 : SmartQueue)
    (hg : s.get_next now = (some req, s1)) (hm : req.callback_arg = none) :
    vitoLoop true optoQueueSize pushOk s now =
        (.droppedMalformed, s1.release_current now) ∧
      (s1.release_current now).has_current = false ∧
      (s1.release_current now).size + 1 = s1.size := by
  obtain ⟨h1, h2⟩ := get_next_some_current s now req s1 hg
  refine ⟨?_, ?_, ?_⟩
  · unfold vitoLoop
    rw [hg]
    simp [hm]
  · simp [SmartQueue.release_current, h1]
  · unfold SmartQueue.get_current_ptr at h2
    rw [if_pos h1] at h2
    by_cases hw : s1.current_is_write = true
    · rw [if_pos hw] at h2
      cases hq : s1.write_queue with
      | nil => rw [hq] at h2; simp at h2
      | cons a t =>
        simp [SmartQueue.release_current, SmartQueue.size, h1, hw, hq]
        omega
    · rw [if_neg hw] at h2
      cases hq : s1.read_queue with
      | nil => rw [hq] at h2; simp at h2
      | cons a t =>
        simp [SmartQueue.release_current, SmartQueue.size, h1, hw, hq]
        omega

/-- Witness for C9: the malformed read at the front of the read class is
selected at time 100 and dropped by the dispatcher step. -/
theorem c9_malformed_dropped_witness :
    vitoLoop true 0 true c9state 100 =
        (.droppedMalformed, (c9state.get_next 100).2.release_current 100) ∧
      ((c9state.get_next 100).2.release_current 100).has_current = false ∧
      ((c9state.get_next 100).2.release_current 100).size + 1 =
        (c9state.get_next 100).2.size :=
  c9_malformed_dropped c9state 100 0 true c9req (c9state.get_next 100).2
    (by decide) rfl
